import Mathlib

/-!
Verification of the Nautilus enclave core (boot sequencer and intent-scoped
signing protocol) against its specification.  The Rust sources are shallowly
embedded: machine integers become `Nat` with explicit `% 2^64` where wrapping
matters, byte strings become `List Nat` (each element < 256), fallible code
returns `Option`/`Except`, and side-effecting boot/attestation code becomes
pure functions that also return the ordered trace of the external calls they
make.
-/

namespace Nautilus

/-! ### Byte-level encoding primitives (BCS and hex)

`bcs::to_bytes` serializes structs field-by-field in declaration order,
`u64` as 8 little-endian bytes, `String` as a ULEB128 byte length followed
by the UTF-8 bytes, and a `serde_repr` `#[repr(u8)]` enum as its single
`u8` discriminant byte. -/

/-- The modulus of the Rust `u64` type. -/
def u64size : Nat := 2 ^ 64

/-- Little-endian encoding of a `u64` value as exactly 8 bytes. -/
def u64le (n : Nat) : List Nat :=
  (List.range 8).map (fun i => n / 256 ^ i % 256)

/-- ULEB128 encoding step with explicit fuel (structural recursion so the
kernel can evaluate it; `n` itself is always enough fuel since `n / 128 < n`). -/
def uleb128Aux : Nat → Nat → List Nat
  | _, 0 => []
  | n, fuel + 1 =>
    if n < 128 then [n]
    else (n % 128 + 128) :: uleb128Aux (n / 128) fuel

/-- ULEB128 encoding of a natural number, as used by BCS for lengths. -/
def uleb128 (n : Nat) : List Nat :=
  uleb128Aux n (n + 1)

/-- UTF-8 encoding of a single Unicode code point. -/
def utf8Char (c : Char) : List Nat :=
  let n := c.toNat
  if n < 0x80 then [n]
  else if n < 0x800 then [0xC0 + n / 64, 0x80 + n % 64]
  else if n < 0x10000 then [0xE0 + n / 4096, 0x80 + n / 64 % 64, 0x80 + n % 64]
  else [0xF0 + n / 262144, 0x80 + n / 4096 % 64, 0x80 + n / 64 % 64, 0x80 + n % 64]

/-- UTF-8 bytes of a string. -/
def utf8Bytes (s : String) : List Nat :=
  (s.data.map utf8Char).flatten

/-- BCS encoding of a Rust `String`: ULEB128 byte length, then UTF-8 bytes. -/
def bcsString (s : String) : List Nat :=
  uleb128 (utf8Bytes s).length ++ utf8Bytes s

/-- Lowercase hex digit for a value below 16 (as in `fastcrypto::encoding::Hex`). -/
def hexDigit (n : Nat) : Char :=
  if n < 10 then Char.ofNat (48 + n) else Char.ofNat (87 + n)

/-- `Hex::encode`: each byte becomes two lowercase hex digits, no prefix. -/
def hexEncode (bytes : List Nat) : String :=
  ⟨(bytes.map (fun b => [hexDigit (b / 16), hexDigit (b % 16)])).flatten⟩

/-- Value of one hex digit character (`Hex::decode` accepts both cases). -/
def hexDigitVal (c : Char) : Option Nat :=
  if 48 ≤ c.toNat ∧ c.toNat ≤ 57 then some (c.toNat - 48)
  else if 97 ≤ c.toNat ∧ c.toNat ≤ 102 then some (c.toNat - 87)
  else if 65 ≤ c.toNat ∧ c.toNat ≤ 70 then some (c.toNat - 55)
  else none

/-- `Hex::decode` on a character list: pairs of hex digits to bytes. -/
def hexDecodeChars : List Char → Option (List Nat)
  | [] => some []
  | [_] => none
  | c1 :: c2 :: rest =>
    match hexDigitVal c1, hexDigitVal c2, hexDecodeChars rest with
    | some v1, some v2, some bs => some ((v1 * 16 + v2) :: bs)
    | _, _, _ => none

/-- `Hex::decode` on a string. -/
def hexDecode (s : String) : Option (List Nat) :=
  hexDecodeChars s.data

/-! ### Data model (`common.rs`, `app.rs`) -/

/-- `IntentScope` enum from `common.rs`: `#[repr(u8)]`, single variant `Weather = 0`. -/
inductive IntentScope where
  | Weather
deriving DecidableEq, Repr

/-- The `u8` discriminant a scope serializes to (`serde_repr`). -/
def scopeTag : IntentScope → Nat
  | IntentScope.Weather => 0

/-- `IntentMessage<T>` from `common.rs`: intent scope, timestamp, payload. -/
structure IntentMessage (T : Type) where
  intent : IntentScope
  timestamp_ms : Nat
  data : T
deriving Repr

/-- `WeatherResponse` from `app.rs`: the inner payload type `T`. -/
structure WeatherResponse where
  location : String
  temperature : Nat
deriving DecidableEq, Repr

/-- `ProcessedDataResponse<T>` from `common.rs`: response plus hex signature. -/
structure ProcessedDataResponse (T : Type) where
  response : T
  signature : String
deriving Repr

/-- BCS encoding of an `IntentMessage` given the raw `u8` tag of its scope:
the tag byte, then the 8 little-endian timestamp bytes, then the BCS bytes
of the payload.  Field order is the declaration order in `common.rs`. -/
def bcsIntentMessageTag (tag : Nat) (timestamp_ms : Nat) (dataBytes : List Nat) : List Nat :=
  tag :: (u64le timestamp_ms ++ dataBytes)

/-- BCS encoding of `IntentMessage<T>` given a BCS serializer for `T`
(the Lean counterpart of the `T: Serialize` bound). -/
def bcsIntentMessage {T : Type} (serData : T → List Nat) (m : IntentMessage T) : List Nat :=
  bcsIntentMessageTag (scopeTag m.intent) m.timestamp_ms (serData m.data)

/-- BCS encoding of `WeatherResponse`: the `location` string then the
`temperature` u64, in declaration order. -/
def bcsWeatherResponse (w : WeatherResponse) : List Nat :=
  bcsString w.location ++ u64le w.temperature

/-! ### C1: the golden serialization vector (`test_serde` in `app.rs`) -/

/-- C1: for payload `{location: "San Francisco", temperature: 13}`,
`timestamp_ms = 1744038900000` and scope `Weather`, the BCS encoding of the
`IntentMessage` is exactly the byte string whose hex form is
`0020b1d110960100000d53616e204672616e636973636f0d00000000000000`. -/
theorem golden_vector_serialization :
    hexDecode "0020b1d110960100000d53616e204672616e636973636f0d00000000000000"
      = some (bcsIntentMessage bcsWeatherResponse
          ⟨IntentScope.Weather, 1744038900000,
            ⟨"San Francisco", 13⟩⟩) := by
  decide

/-! ### Hex round-trip -/

/-- Character-list form of `hexEncode`. -/
def hexEncodeChars (bytes : List Nat) : List Char :=
  (bytes.map (fun b => [hexDigit (b / 16), hexDigit (b % 16)])).flatten

theorem hexEncode_eq_mk (bytes : List Nat) :
    hexEncode bytes = ⟨hexEncodeChars bytes⟩ := rfl

theorem hexDigitVal_hexDigit (n : Nat) (h : n < 16) :
    hexDigitVal (hexDigit n) = some n := by
  interval_cases n <;> decide

theorem hexDecodeChars_hexEncodeChars (bytes : List Nat)
    (h : ∀ b ∈ bytes, b < 256) :
    hexDecodeChars (hexEncodeChars bytes) = some bytes := by
  induction bytes with
  | nil => rfl
  | cons b bs ih =>
    have hb : b < 256 := h b (List.mem_cons_self _ _)
    have hbs : ∀ x ∈ bs, x < 256 := fun x hx => h x (List.mem_cons_of_mem _ hx)
    have h1 : b / 16 < 16 := by omega
    have h2 : b % 16 < 16 := by omega
    show hexDecodeChars
        (hexDigit (b / 16) :: hexDigit (b % 16) :: hexEncodeChars bs) = _
    rw [hexDecodeChars, hexDigitVal_hexDigit _ h1, hexDigitVal_hexDigit _ h2,
      ih hbs]
    show some ((b / 16 * 16 + b % 16) :: bs) = some (b :: bs)
    have : b / 16 * 16 + b % 16 = b := by omega
    rw [this]

/-- Decoding inverts encoding on genuine byte lists. -/
theorem hexDecode_hexEncode (bytes : List Nat) (h : ∀ b ∈ bytes, b < 256) :
    hexDecode (hexEncode bytes) = some bytes :=
  hexDecodeChars_hexEncodeChars bytes h

/-! ### The intent-scoped signer (`to_signed_response` in `common.rs`)

The Rust function is generic over `T: Serialize` and an `Ed25519KeyPair`;
the embedding is generic over a BCS serializer `ser` for `T` and an abstract
signing function `sign` standing for `kp.sign` (ed25519 itself is an external
primitive of the `fastcrypto` crate). -/

/-- `to_signed_response`: build the `IntentMessage`, BCS-serialize it, sign
the canonical bytes, return the message together with the hex signature.
For the statically-typed payloads used here `bcs::to_bytes` cannot fail, so
the `.expect` in the source always succeeds and the function is total. -/
def to_signed_response {K T : Type} (sign : K → List Nat → List Nat)
    (ser : T → List Nat) (kp : K) (payload : T) (timestamp_ms : Nat)
    (intent : IntentScope) : ProcessedDataResponse (IntentMessage T) :=
  let intent_msg : IntentMessage T := ⟨intent, timestamp_ms, payload⟩
  let signing_payload := bcsIntentMessage ser intent_msg
  let sig := sign kp signing_payload
  ⟨intent_msg, hexEncode sig⟩

/-- C2: for every keypair, payload, timestamp and scope, re-canonicalizing
the `response` field of the returned `SignedResponse` and verifying the
hex-decoded `signature` against the keypair's public key succeeds, for any
correct signature scheme producing byte-valued signatures. -/
theorem signed_response_roundtrip_verifies {K PK T : Type}
    (sign : K → List Nat → List Nat) (verify : PK → List Nat → List Nat → Bool)
    (pub : K → PK)
    (hcorrect : ∀ k m, verify (pub k) m (sign k m) = true)
    (hsigbytes : ∀ k m, ∀ b ∈ sign k m, b < 256)
    (ser : T → List Nat) (kp : K) (payload : T) (ts : Nat)
    (intent : IntentScope) :
    hexDecode (to_signed_response sign ser kp payload ts intent).signature
      = some (sign kp (bcsIntentMessage ser
          (to_signed_response sign ser kp payload ts intent).response))
    ∧ verify (pub kp)
        (bcsIntentMessage ser
          (to_signed_response sign ser kp payload ts intent).response)
        ((hexDecode
            (to_signed_response sign ser kp payload ts intent).signature).getD [])
      = true := by
  have hdec : hexDecode (to_signed_response sign ser kp payload ts intent).signature
      = some (sign kp (bcsIntentMessage ser
          (to_signed_response sign ser kp payload ts intent).response)) :=
    hexDecode_hexEncode _ (hsigbytes kp _)
  refine ⟨hdec, ?_⟩
  rw [hdec]
  exact hcorrect kp _

/-- Stand-in signature scheme used only to instantiate scheme-generic
theorems at a concrete input. -/
def toySign : Unit → List Nat → List Nat := fun _ _ => [0]

/-- Verifier of the stand-in scheme. -/
def toyVerify : Unit → List Nat → List Nat → Bool := fun _ _ s => s == [0]

/-- Public-key projection of the stand-in scheme. -/
def toyPub : Unit → Unit := fun _ => ()

/-- Witness for C2 at a concrete keypair, payload, timestamp and scope. -/
theorem signed_response_roundtrip_verifies_witness :
    hexDecode (to_signed_response toySign bcsWeatherResponse ()
        ⟨"San Francisco", 13⟩ 1744038900000 IntentScope.Weather).signature
      = some (toySign () (bcsIntentMessage bcsWeatherResponse
          (to_signed_response toySign bcsWeatherResponse ()
            ⟨"San Francisco", 13⟩ 1744038900000 IntentScope.Weather).response))
    ∧ toyVerify (toyPub ())
        (bcsIntentMessage bcsWeatherResponse
          (to_signed_response toySign bcsWeatherResponse ()
            ⟨"San Francisco", 13⟩ 1744038900000 IntentScope.Weather).response)
        ((hexDecode (to_signed_response toySign bcsWeatherResponse ()
            ⟨"San Francisco", 13⟩ 1744038900000 IntentScope.Weather).signature).getD [])
      = true :=
  signed_response_roundtrip_verifies toySign toyVerify toyPub
    (fun _ _ => rfl) (fun _ _ b hb => by simp [toySign] at hb; omega)
    bcsWeatherResponse () ⟨"San Francisco", 13⟩ 1744038900000 IntentScope.Weather

/-- C3: two `IntentMessage` values agreeing on timestamp and data but
carrying distinct `u8` scope discriminants have different canonical
serializations (the tag is the first byte).  `bcsIntentMessage` factors
through `bcsIntentMessageTag` on `scopeTag`, so this covers every pair of
scopes with distinct discriminants. -/
theorem scope_separation (t1 t2 ts : Nat) (d : List Nat)
    (h1 : t1 < 256) (h2 : t2 < 256) (hne : t1 ≠ t2) :
    bcsIntentMessageTag t1 ts d ≠ bcsIntentMessageTag t2 ts d := by
  simp only [bcsIntentMessageTag, ne_eq, List.cons.injEq, not_and]
  intro h
  exact absurd h hne

/-- Witness for C3 at tags 0 and 1. -/
theorem scope_separation_witness :
    bcsIntentMessageTag 0 0 [] ≠ bcsIntentMessageTag 1 0 [] :=
  scope_separation 0 1 0 [] (by decide) (by decide) (by decide)

/-- Fallible-serializer form of `to_signed_response`.  `bcs::to_bytes`
returns a `Result`; the source's `.expect("should not fail")` aborts the
call on failure, modelled as `none`: no `SignedResponse` is produced. -/
def to_signed_response_fallible {K T : Type} (sign : K → List Nat → List Nat)
    (ser : IntentMessage T → Option (List Nat)) (kp : K) (payload : T)
    (timestamp_ms : Nat) (intent : IntentScope) :
    Option (ProcessedDataResponse (IntentMessage T)) :=
  let intent_msg : IntentMessage T := ⟨intent, timestamp_ms, payload⟩
  match ser intent_msg with
  | none => none
  | some signing_payload => some ⟨intent_msg, hexEncode (sign kp signing_payload)⟩

/-- C7: a canonicalization failure yields no response at all, and every
returned `SignedResponse` carries a signature computed from the complete
canonical encoding of exactly the returned `response` — never partial data. -/
theorem signing_failure_propagates {K T : Type}
    (sign : K → List Nat → List Nat) (ser : IntentMessage T → Option (List Nat))
    (kp : K) (payload : T) (ts : Nat) (intent : IntentScope) :
    (ser ⟨intent, ts, payload⟩ = none →
      to_signed_response_fallible sign ser kp payload ts intent = none)
    ∧ ∀ resp, to_signed_response_fallible sign ser kp payload ts intent = some resp →
        resp.response = ⟨intent, ts, payload⟩
        ∧ ∃ b, ser resp.response = some b ∧ resp.signature = hexEncode (sign kp b) := by
  cases h : ser ⟨intent, ts, payload⟩ with
  | none =>
    refine ⟨fun _ => ?_, fun resp hresp => ?_⟩
    · simp [to_signed_response_fallible, h]
    · simp [to_signed_response_fallible, h] at hresp
  | some b =>
    refine ⟨fun hnone => ?_, fun resp hresp => ?_⟩
    · exact absurd hnone (by simp)
    · simp only [to_signed_response_fallible, h] at hresp
      cases hresp
      exact ⟨rfl, b, h, rfl⟩

/-- Witness for C7: a serializer that fails produces no signed response. -/
theorem signing_failure_propagates_witness :
    to_signed_response_fallible toySign
      (fun _ : IntentMessage WeatherResponse => none) () ⟨"x", 0⟩ 0
      IntentScope.Weather = none :=
  (signing_failure_propagates toySign (fun _ => none) () ⟨"x", 0⟩ 0
    IntentScope.Weather).1 rfl

/-! ### Hardware attestation binder (`get_attestation` in `common.rs`)

The NSM driver (`nsm_api`) is an external crate: its request/response types
are embedded with the attestation variants explicit and all other variants
abstracted by a tag, and the driver itself becomes a function parameter
`respond`.  The side-effecting calls `nsm_init` / `nsm_process_request` /
`nsm_exit` are recorded in an ordered trace. -/

/-- `nsm_api::api::Request`, attestation variant explicit. -/
inductive NsmRequest where
  | Attestation (user_data : Option (List Nat)) (nonce : Option (List Nat))
      (public_key : Option (List Nat))
  | otherRequest (tag : Nat)
deriving DecidableEq, Repr

/-- `nsm_api::api::Response`, attestation variant explicit. -/
inductive NsmResponse where
  | Attestation (document : List Nat)
  | otherResponse (tag : Nat)
deriving DecidableEq, Repr

/-- A call into the NSM driver interface. -/
inductive DriverCall where
  | nsm_start
  | nsm_process_request (fd : Nat) (req : NsmRequest)
  | nsm_release (fd : Nat)
deriving DecidableEq, Repr

/-- The request `get_attestation` builds: user data and nonce absent, the
enclave public key present. -/
def attestationRequest (pk : List Nat) : NsmRequest :=
  NsmRequest.Attestation none none (some pk)

/-- `get_attestation`: acquire the driver handle, send the attestation
request, hex-encode the returned document on the attestation variant, error
on any other variant; the handle is released in both arms.  Returns the
ordered driver-call trace alongside the result. -/
def get_attestation (fd : Nat) (respond : NsmRequest → NsmResponse)
    (pk : List Nat) : List DriverCall × Except String String :=
  let request := attestationRequest pk
  let response := respond request
  match response with
  | NsmResponse.Attestation document =>
    ([DriverCall.nsm_start, DriverCall.nsm_process_request fd request,
      DriverCall.nsm_release fd],
     Except.ok (hexEncode document))
  | _ =>
    ([DriverCall.nsm_start, DriverCall.nsm_process_request fd request,
      DriverCall.nsm_release fd],
     Except.error "unexpected response")

/-- C5: the request is sent with `user_data` and `nonce` absent and
`public_key` set; the call succeeds with the hex-encoded document exactly
when the driver answers with the attestation variant, and any other variant
yields an explicit error. -/
theorem attestation_response_handling (fd : Nat)
    (respond : NsmRequest → NsmResponse) (pk : List Nat) :
    attestationRequest pk = NsmRequest.Attestation none none (some pk)
    ∧ (∀ d, respond (attestationRequest pk) = NsmResponse.Attestation d →
        (get_attestation fd respond pk).2 = Except.ok (hexEncode d))
    ∧ ((∀ d, respond (attestationRequest pk) ≠ NsmResponse.Attestation d) →
        (get_attestation fd respond pk).2 = Except.error "unexpected response") := by
  refine ⟨rfl, fun d hd => ?_, fun hall => ?_⟩
  · simp [get_attestation, hd]
  · cases hr : respond (attestationRequest pk) with
    | Attestation doc => exact absurd hr (hall doc)
    | otherResponse t => simp [get_attestation, hr]

/-- Witness for C5: a driver answering with the attestation variant makes
the call return the hex-encoded document. -/
theorem attestation_response_handling_witness :
    (get_attestation 3 (fun _ => NsmResponse.Attestation [1, 2, 3]) [7]).2
      = Except.ok (hexEncode [1, 2, 3]) :=
  (attestation_response_handling 3 (fun _ => NsmResponse.Attestation [1, 2, 3])
    [7]).2.1 [1, 2, 3] rfl

/-- C6: on every path of `get_attestation` — attestation variant or not —
the driver handle is released exactly once, as the final driver call, after
the handle was acquired as the first driver call. -/
theorem attestation_handle_released_once (fd : Nat)
    (respond : NsmRequest → NsmResponse) (pk : List Nat) :
    (get_attestation fd respond pk).1.count (DriverCall.nsm_release fd) = 1
    ∧ (get_attestation fd respond pk).1.getLast? = some (DriverCall.nsm_release fd)
    ∧ (get_attestation fd respond pk).1.head? = some DriverCall.nsm_start := by
  cases hr : respond (attestationRequest pk) with
  | Attestation doc => simp [get_attestation, hr, List.count_cons]
  | otherResponse t => simp [get_attestation, hr, List.count_cons]

/-! ### Boot sequencer (`init.rs`)

The fallible system calls (`std::fs::exists`, `create_dir_all`, `mount`,
`freopen`, `seed_entropy`, `spawn`, `wait`) become outcome parameters, and
each run of the sequencer is embedded as the ordered trace of the attempts
it makes and the messages it logs. -/

/-- One entry of the fixed mount table. -/
structure MountSpec where
  source : String
  target : String
  fstype : String
  flags : Nat
  data : String
deriving DecidableEq, Repr

/-- `libc::MS_NOSUID`. -/
def MS_NOSUID : Nat := 2

/-- `libc::MS_NODEV`. -/
def MS_NODEV : Nat := 4

/-- `libc::MS_NOEXEC`. -/
def MS_NOEXEC : Nat := 8

/-- `no_dse` from `init_rootfs`. -/
def no_dse : Nat := MS_NODEV ||| MS_NOSUID ||| MS_NOEXEC

/-- `no_se` from `init_rootfs`. -/
def no_se : Nat := MS_NOSUID ||| MS_NOEXEC

/-- The fixed ordered mount table `args` in `init_rootfs`. -/
def mount_table : List MountSpec :=
  [⟨"devtmpfs", "/dev", "devtmpfs", no_se, "mode=0755"⟩,
   ⟨"devpts", "/dev/pts", "devpts", no_se, ""⟩,
   ⟨"shm", "/dev/shm", "tmpfs", no_dse, "mode=0755"⟩,
   ⟨"proc", "/proc", "proc", no_dse, "hidepid=2"⟩,
   ⟨"tmpfs", "/run", "tmpfs", no_dse, "mode=0755"⟩,
   ⟨"tmpfs", "/tmp", "tmpfs", no_dse, ""⟩,
   ⟨"sysfs", "/sys", "sysfs", no_dse, ""⟩,
   ⟨"cgroup_root", "/sys/fs/cgroup", "tmpfs", no_dse, "mode=0755"⟩]

/-- Observable events of the boot sequence. -/
inductive BootEvent where
  | create_dir_attempt (target : String)
  | create_dir_logged (target : String)
  | create_dir_failed (target : String)
  | mount_attempt (target : String)
  | mount_logged (target : String)
  | mount_failed (target : String)
  | console_attempt (fd : Nat)
  | console_failed (fd : Nat)
  | platform_setup
  | seed_attempt (bytes : Nat)
  | seed_logged (written : Nat)
  | seed_failed
deriving DecidableEq, Repr

/-- One iteration of the `init_rootfs` loop.  Faithful to the source: the
directory-creation branch is guarded by `std::fs::exists(target).unwrap_or(false)`
being TRUE, the mount is attempted afterwards, and every failure is only
logged. -/
def init_rootfs_entry (fs_exists : String → Option Bool)
    (create_result : String → Except String Unit)
    (mount_result : MountSpec → Except String Unit) (m : MountSpec) :
    List BootEvent :=
  (if (fs_exists m.target).getD false then
    BootEvent.create_dir_attempt m.target ::
      (match create_result m.target with
       | Except.ok _ => [BootEvent.create_dir_logged m.target]
       | Except.error _ => [BootEvent.create_dir_failed m.target])
  else [])
  ++ BootEvent.mount_attempt m.target ::
      (match mount_result m with
       | Except.ok _ => [BootEvent.mount_logged m.target]
       | Except.error _ => [BootEvent.mount_failed m.target])

/-- `init_rootfs`: run every entry of the fixed table in order. -/
def init_rootfs (fs_exists : String → Option Bool)
    (create_result : String → Except String Unit)
    (mount_result : MountSpec → Except String Unit) : List BootEvent :=
  (mount_table.map (init_rootfs_entry fs_exists create_result mount_result)).flatten

/-- The `freopen` argument table of `init_console`. -/
def console_table : List (String × String × Nat) :=
  [("/dev/console", "r", 0), ("/dev/console", "w", 1), ("/dev/console", "w", 2)]

/-- Log produced by one `freopen` call: nothing on success, an error line
on failure. -/
def console_log (outcome : Except String Unit) (fd : Nat) : List BootEvent :=
  match outcome with
  | Except.ok _ => []
  | Except.error _ => [BootEvent.console_failed fd]

/-- `init_console`: redirect the three standard streams; failures logged. -/
def init_console (freopen_result : Nat → Except String Unit) : List BootEvent :=
  (console_table.map (fun c =>
    BootEvent.console_attempt c.2.2 :: console_log (freopen_result c.2.2) c.2.2)).flatten

/-- `boot`: mount table, console redirection, platform hook, then seeding
the kernel randomness pool with 4096 bytes; every failure only logged. -/
def boot (fs_exists : String → Option Bool)
    (create_result : String → Except String Unit)
    (mount_result : MountSpec → Except String Unit)
    (freopen_result : Nat → Except String Unit)
    (seed_result : Except String Nat) : List BootEvent :=
  init_rootfs fs_exists create_result mount_result
  ++ init_console freopen_result
  ++ [BootEvent.platform_setup]
  ++ BootEvent.seed_attempt 4096 ::
      (match seed_result with
       | Except.ok written => [BootEvent.seed_logged written]
       | Except.error _ => [BootEvent.seed_failed])

/-- Marks the events recording that a boot step was attempted. -/
def isAttempt : BootEvent → Bool
  | BootEvent.mount_attempt _ => true
  | BootEvent.console_attempt _ => true
  | BootEvent.platform_setup => true
  | BootEvent.seed_attempt _ => true
  | _ => false

/-- Marks a directory-creation attempt. -/
def isCreateAttempt : BootEvent → Bool
  | BootEvent.create_dir_attempt _ => true
  | _ => false

theorem filter_isAttempt_entry (fs_exists : String → Option Bool)
    (create_result : String → Except String Unit)
    (mount_result : MountSpec → Except String Unit) (m : MountSpec) :
    (init_rootfs_entry fs_exists create_result mount_result m).filter isAttempt
      = [BootEvent.mount_attempt m.target] := by
  unfold init_rootfs_entry
  cases h1 : (fs_exists m.target).getD false with
  | false => cases h2 : mount_result m <;> simp [isAttempt]
  | true =>
    cases h2 : create_result m.target <;> cases h3 : mount_result m <;>
      simp [isAttempt]

theorem filter_isAttempt_console_log (outcome : Except String Unit) (fd : Nat) :
    (console_log outcome fd).filter isAttempt = [] := by
  cases outcome <;> simp [console_log, isAttempt]

/-- C8: for every assignment of outcomes to the fallible steps — including
every step failing — the boot sequence attempts its steps in the fixed
order (the eight mounts of the table, the three console redirections, the
platform hook, the entropy seeding), its final step seeds the kernel
randomness pool with exactly 4096 bytes, and a failing seed step is logged
while the sequence still completes. -/
theorem boot_order_and_nonfatal (fs_exists : String → Option Bool)
    (create_result : String → Except String Unit)
    (mount_result : MountSpec → Except String Unit)
    (freopen_result : Nat → Except String Unit)
    (seed_result : Except String Nat) :
    (boot fs_exists create_result mount_result freopen_result
        seed_result).filter isAttempt
      = [BootEvent.mount_attempt "/dev", BootEvent.mount_attempt "/dev/pts",
         BootEvent.mount_attempt "/dev/shm", BootEvent.mount_attempt "/proc",
         BootEvent.mount_attempt "/run", BootEvent.mount_attempt "/tmp",
         BootEvent.mount_attempt "/sys",
         BootEvent.mount_attempt "/sys/fs/cgroup",
         BootEvent.console_attempt 0, BootEvent.console_attempt 1,
         BootEvent.console_attempt 2, BootEvent.platform_setup,
         BootEvent.seed_attempt 4096]
    ∧ (∀ e, seed_result = Except.error e →
        BootEvent.seed_failed
          ∈ boot fs_exists create_result mount_result freopen_result seed_result)
    ∧ (∀ written, seed_result = Except.ok written →
        BootEvent.seed_logged written
          ∈ boot fs_exists create_result mount_result freopen_result seed_result) := by
  refine ⟨?_, fun e he => ?_, fun written hw => ?_⟩
  · cases seed_result with
    | ok written =>
      simp [boot, init_rootfs, init_console, mount_table, console_table,
        List.filter_append, filter_isAttempt_entry, filter_isAttempt_console_log,
        isAttempt]
    | error e =>
      simp [boot, init_rootfs, init_console, mount_table, console_table,
        List.filter_append, filter_isAttempt_entry, filter_isAttempt_console_log,
        isAttempt]
  · cases he
    simp [boot]
  · cases hw
    simp [boot]

/-- Witness for C8: with every fallible step failing, the attempt order is
the fixed one and the seed failure is logged. -/
theorem boot_order_and_nonfatal_witness :
    (boot (fun _ => none) (fun _ => Except.error "fail")
        (fun _ => Except.error "fail") (fun _ => Except.error "fail")
        (Except.error "fail")).filter isAttempt
      = [BootEvent.mount_attempt "/dev", BootEvent.mount_attempt "/dev/pts",
         BootEvent.mount_attempt "/dev/shm", BootEvent.mount_attempt "/proc",
         BootEvent.mount_attempt "/run", BootEvent.mount_attempt "/tmp",
         BootEvent.mount_attempt "/sys",
         BootEvent.mount_attempt "/sys/fs/cgroup",
         BootEvent.console_attempt 0, BootEvent.console_attempt 1,
         BootEvent.console_attempt 2, BootEvent.platform_setup,
         BootEvent.seed_attempt 4096]
    ∧ BootEvent.seed_failed
        ∈ boot (fun _ => none) (fun _ => Except.error "fail")
            (fun _ => Except.error "fail") (fun _ => Except.error "fail")
            (Except.error "fail") :=
  ⟨(boot_order_and_nonfatal (fun _ => none) (fun _ => Except.error "fail")
      (fun _ => Except.error "fail") (fun _ => Except.error "fail")
      (Except.error "fail")).1,
   (boot_order_and_nonfatal (fun _ => none) (fun _ => Except.error "fail")
      (fun _ => Except.error "fail") (fun _ => Except.error "fail")
      (Except.error "fail")).2.1 "fail" rfl⟩

/-- C4 counterevidence: when the filesystem reports the target `/proc`
ABSENT, the loop body attempts no directory creation and proceeds straight
to the mount; when it reports the target PRESENT, the loop body attempts
the (unnecessary) creation.  The guard in `init.rs` is
`if std::fs::exists(target).unwrap_or(false)`, the inverse of the
create-if-absent behavior the specification states. -/
theorem mount_dir_creation_inverted :
    (init_rootfs_entry (fun _ => some false) (fun _ => Except.ok ())
        (fun _ => Except.ok ())
        ⟨"proc", "/proc", "proc", no_dse, "hidepid=2"⟩).filter isCreateAttempt
      = []
    ∧ (init_rootfs_entry (fun _ => some true) (fun _ => Except.ok ())
        (fun _ => Except.ok ())
        ⟨"proc", "/proc", "proc", no_dse, "hidepid=2"⟩).filter isCreateAttempt
      = [BootEvent.create_dir_attempt "/proc"] := by
  constructor <;> rfl

/-! ### Workload supervision (`main` in `init.rs`) -/

/-- Observable events of `main`. -/
inductive MainEvent where
  | boot_step (e : BootEvent)
  | booted_logged
  | env_set (key val : String)
  | spawn_attempt (cmd arg : String)
  | spawn_logged
  | exit_status_logged (status : Int)
  | wait_failed
  | spawn_failed
  | reboot
deriving DecidableEq, Repr

/-- `main`: boot, log, set the two environment variables, spawn `/sh /run.sh`
once, wait for it (logging its exit status, or the wait/spawn error), then
reboot.  `spawn_result` carries the spawn outcome and, when the spawn
succeeded, the wait outcome. -/
def main_trace (bootEvents : List BootEvent)
    (spawn_result : Except String (Except String Int)) : List MainEvent :=
  bootEvents.map MainEvent.boot_step
  ++ [MainEvent.booted_logged,
      MainEvent.env_set "SSL_CERT_FILE" "/ca-certificates.crt",
      MainEvent.env_set "PATH" "/bin:/sbin:/usr/bin:/usr/sbin:/",
      MainEvent.spawn_attempt "/sh" "/run.sh"]
  ++ (match spawn_result with
      | Except.ok wait_result =>
        MainEvent.spawn_logged ::
          (match wait_result with
           | Except.ok status => [MainEvent.exit_status_logged status]
           | Except.error _ => [MainEvent.wait_failed])
      | Except.error _ => [MainEvent.spawn_failed])
  ++ [MainEvent.reboot]

/-- Marks a spawn attempt. -/
def isSpawnAttempt : MainEvent → Bool
  | MainEvent.spawn_attempt _ _ => true
  | _ => false

/-- C9: on every path — spawn failure, wait failure, or clean child exit —
`main` attempts exactly one spawn, the reboot is the final event and occurs
exactly once, and a clean child exit gets its status logged. -/
theorem supervise_once_then_reboot (bootEvents : List BootEvent)
    (spawn_result : Except String (Except String Int)) :
    (main_trace bootEvents spawn_result).countP isSpawnAttempt = 1
    ∧ (main_trace bootEvents spawn_result).getLast? = some MainEvent.reboot
    ∧ (main_trace bootEvents spawn_result).count MainEvent.reboot = 1
    ∧ ∀ status, spawn_result = Except.ok (Except.ok status) →
        MainEvent.exit_status_logged status ∈ main_trace bootEvents spawn_result := by
  refine ⟨?_, ?_, ?_, fun status hs => ?_⟩
  · cases spawn_result with
    | ok wait_result =>
      cases wait_result <;>
        simp [main_trace, isSpawnAttempt, List.countP_append, List.countP_map,
          List.countP_cons, Function.comp]
    | error e =>
      simp [main_trace, isSpawnAttempt, List.countP_append, List.countP_map,
        List.countP_cons, Function.comp]
  · cases spawn_result with
    | ok wait_result =>
      cases wait_result <;>
        simp [main_trace, List.getLast?_append_cons]
    | error e => simp [main_trace, List.getLast?_append_cons]
  · cases spawn_result with
    | ok wait_result =>
      cases wait_result <;>
        simp [main_trace, List.count_append, List.count_cons,
          List.count_eq_zero, List.mem_map]
    | error e =>
      simp [main_trace, List.count_append, List.count_cons,
        List.count_eq_zero, List.mem_map]
  · cases hs
    simp [main_trace]

/-- Witness for C9: with a clean child exit of status 0, the spawn happens
once, the exit status is logged, and the reboot ends the trace. -/
theorem supervise_once_then_reboot_witness :
    (main_trace [] (Except.ok (Except.ok 0))).countP isSpawnAttempt = 1
    ∧ (main_trace [] (Except.ok (Except.ok 0))).getLast? = some MainEvent.reboot
    ∧ MainEvent.exit_status_logged 0 ∈ main_trace [] (Except.ok (Except.ok 0)) :=
  ⟨(supervise_once_then_reboot [] (Except.ok (Except.ok 0))).1,
   (supervise_once_then_reboot [] (Except.ok (Except.ok 0))).2.1,
   (supervise_once_then_reboot [] (Except.ok (Except.ok 0))).2.2.2 0 rfl⟩

/-! ### Freshness check of `process_data` (`app.rs`)

The HTTP fetch and JSON field extraction are application glue; the embedded
core takes the already-extracted fields (`location`, `temperature`,
`last_updated_epoch`) and the current system time, and performs the
staleness check and signing exactly as the source does.  The `u64`
arithmetic (`last_updated_epoch * 1000_u64` and the `+ 3_600_000`) is
unchecked, hence the explicit `% u64size`. -/

/-- The staleness-check-and-sign tail of `process_data`. -/
def process_data_core {K : Type} (sign : K → List Nat → List Nat) (kp : K)
    (location : String) (temperature last_updated_epoch now_ms : Nat) :
    Except String (ProcessedDataResponse (IntentMessage WeatherResponse)) :=
  let last_updated_timestamp_ms := last_updated_epoch * 1000 % u64size
  if (last_updated_timestamp_ms + 3600000) % u64size < now_ms then
    Except.error "Weather API timestamp is too old"
  else
    Except.ok (to_signed_response sign bcsWeatherResponse kp
      ⟨location, temperature⟩ last_updated_timestamp_ms IntentScope.Weather)

/-- C10: `process_data` rejects with an error — producing no signed
response — exactly when the (wrapping) `u64` value
`last_updated_epoch * 1000 + 3_600_000` is strictly below the current
time in milliseconds; data exactly one hour old is still accepted, and an
accepted response carries `timestamp_ms = last_updated_epoch * 1000`
(wrapped, the unchecked `u64` multiplication), the source data's time.
When the arithmetic stays below `2^64` the wrapped condition is the plain
arithmetic one. -/
theorem process_data_staleness {K : Type} (sign : K → List Nat → List Nat)
    (kp : K) (location : String)
    (temperature last_updated_epoch now_ms : Nat) :
    ((last_updated_epoch * 1000 % u64size + 3600000) % u64size < now_ms →
      process_data_core sign kp location temperature last_updated_epoch now_ms
        = Except.error "Weather API timestamp is too old")
    ∧ (now_ms ≤ (last_updated_epoch * 1000 % u64size + 3600000) % u64size →
        process_data_core sign kp location temperature last_updated_epoch now_ms
          = Except.ok (to_signed_response sign bcsWeatherResponse kp
              ⟨location, temperature⟩ (last_updated_epoch * 1000 % u64size)
              IntentScope.Weather)
        ∧ (to_signed_response sign bcsWeatherResponse kp
            ⟨location, temperature⟩ (last_updated_epoch * 1000 % u64size)
            IntentScope.Weather).response.timestamp_ms
          = last_updated_epoch * 1000 % u64size)
    ∧ (last_updated_epoch * 1000 + 3600000 < u64size →
        ((last_updated_epoch * 1000 % u64size + 3600000) % u64size < now_ms
          ↔ last_updated_epoch * 1000 + 3600000 < now_ms)) := by
  refine ⟨fun hlt => ?_, fun hge => ⟨?_, rfl⟩, fun hrange => ?_⟩
  · simp only [process_data_core]
    rw [if_pos hlt]
  · simp only [process_data_core]
    rw [if_neg (by omega)]
  · have h1 : last_updated_epoch * 1000 % u64size = last_updated_epoch * 1000 :=
      Nat.mod_eq_of_lt (by omega)
    rw [h1, Nat.mod_eq_of_lt hrange]

/-- Witness for C10 at the boundary: data exactly one hour old (current
time equal to `last_updated_epoch * 1000 + 3_600_000`) is accepted and the
signed response carries the source data's timestamp. -/
theorem process_data_staleness_witness :
    process_data_core toySign () "San Francisco" 13 1744038900 1744042500000
      = Except.ok (to_signed_response toySign bcsWeatherResponse ()
          ⟨"San Francisco", 13⟩ (1744038900 * 1000 % u64size)
          IntentScope.Weather)
    ∧ (to_signed_response toySign bcsWeatherResponse ()
        ⟨"San Francisco", 13⟩ (1744038900 * 1000 % u64size)
        IntentScope.Weather).response.timestamp_ms
      = 1744038900 * 1000 % u64size :=
  (process_data_staleness toySign () "San Francisco" 13 1744038900
    1744042500000).2.1 (by decide)

end Nautilus
